import Mathlib

/-!
Shallow embedding of `src/source/grid_tools.py` (mesh partitioning for a
FEniCS flow problem): the meshio-style data model, `_create_meshio_mesh`,
the dimension/cell-type inference and orchestration of
`generate_xdmf_mesh`, and Python's `str.replace` used to derive the two
output file names.
-/

namespace GridTools

/-- Cell types occurring in a gmsh-generated mesh. The source only ever
inspects `line`, `triangle` and `tetra`; `point` stands for any other
cell type a mesh may contain. -/
inductive CellType
  | point
  | line
  | triangle
  | tetra
deriving DecidableEq, Repr

/-- Physical-region tag attached to a cell. -/
abbrev Tag := Int

/-- A point: its coordinate list (3 coordinates for a gmsh mesh). -/
abbrev Point := List ℚ

/-- A cell: the list of point indices forming its connectivity tuple. -/
abbrev Cell := List Nat

/-- In-memory mesh as consumed by the source (`meshio.Mesh` through its
`cells_dict` / `cell_data_dict` views): points, a per-cell-type cell
sequence, and per-field, per-cell-type tag sequences. -/
structure Mesh where
  points : List Point
  cells : CellType → Option (List Cell)
  cell_data : String → Option (CellType → Option (List Tag))

/-- The sub-mesh built by `_create_meshio_mesh` via
`meshio.Mesh(points=..., cells={cell_type: cells}, cell_data={data_name: [cell_data]})`:
both dict literals are singletons, so the embedding carries exactly one
cell block and exactly one named cell-data field. -/
structure SubMesh where
  points : List Point
  cells : CellType × List Cell
  cell_data : String × List (List Tag)
deriving DecidableEq, Repr

/-- Modelled from the spec: `meshio.Mesh.get_cells_type` lives in the
external meshio library; per spec section 4.2 step 1 it retrieves the
ordered sequence of cells of `cell_type`, the empty sequence when the
mesh has none. -/
def get_cells_type (m : Mesh) (ct : CellType) : List Cell :=
  (m.cells ct).getD []

/-- Modelled from the spec: `meshio.Mesh.get_cell_data` lives in the
external meshio library; per spec section 4.2 step 2 it retrieves the
parallel tag sequence for `cell_type` from the named tag field, and a
missing entry is a fatal error (`none` here, turned into an error by the
caller). -/
def get_cell_data (m : Mesh) (name : String) (ct : CellType) : Option (List Tag) :=
  (m.cell_data name).bind fun d => d ct

/-- Modelled from the spec: `meshio.Mesh.prune_z_0` lives in the external
meshio library; per spec section 4.2 step 5 it replaces the point set of
the (sub-)mesh with the first two coordinates of every point. -/
def prune_z_0 (s : SubMesh) : SubMesh :=
  { s with points := s.points.map fun pt => pt.take 2 }

/-- `True` when the mesh's `"gmsh:physical"` tag field has an entry for
`ct` (the source's `ct in mesh.cell_data_dict["gmsh:physical"]`). -/
def hasTagEntry (m : Mesh) (ct : CellType) : Bool :=
  match m.cell_data "gmsh:physical" with
  | some t => (t ct).isSome
  | none => false

/-- The `specify data name` decision table inside `_create_meshio_mesh`:
which name the cell-data field of the sub-mesh gets, or `RuntimeError`
when the mesh/cell-type combination matches neither pattern. -/
def data_name_table (mesh : Mesh) (cell_type : CellType) : Except String String :=
  if (mesh.cells .triangle).isSome && !(mesh.cells .tetra).isSome then
    if cell_type = .triangle then .ok "cell_markers"
    else if cell_type = .line then .ok "facet_markers"
    else .error "RuntimeError"
  else if (mesh.cells .triangle).isSome && (mesh.cells .tetra).isSome then
    if cell_type = .tetra then .ok "cell_markers"
    else if cell_type = .triangle then .ok "facet_markers"
    else .error "RuntimeError"
  else .error "RuntimeError"

/-- `_create_meshio_mesh(mesh, cell_type, prune_z)`: extract the cells of
`cell_type`, the parallel `"gmsh:physical"` tags, pick the data name from
the dimension decision table, build the singleton sub-mesh and optionally
prune the z coordinate. The input mesh is threaded through unchanged to
the result, mirroring that the Python function never assigns to `mesh`.
Fatal Python exceptions (failed `assert`, `RuntimeError`, meshio lookup
errors) become `Except.error`. -/
def _create_meshio_mesh (mesh : Mesh) (cell_type : CellType) (prune_z : Bool) :
    Except String (SubMesh × Mesh) :=
  if cell_type ∉ ([.line, .triangle, .tetra] : List CellType) then
    .error "AssertionError: cell_type in (line, triangle, tetra)"
  else
    let cells := get_cells_type mesh cell_type
    if (mesh.cell_data "gmsh:physical").isNone then
      .error "AssertionError: gmsh:physical in mesh.cell_data_dict"
    else
      match get_cell_data mesh "gmsh:physical" cell_type with
      | none => .error "meshio.get_cell_data: no gmsh:physical entry for cell_type"
      | some cell_data =>
        match data_name_table mesh cell_type with
        | .error e => .error e
        | .ok data_name =>
          let out_mesh : SubMesh :=
            { points := mesh.points
              cells := (cell_type, cells)
              cell_data := (data_name, [cell_data]) }
          let out_mesh := if prune_z then prune_z_0 out_mesh else out_mesh
          .ok (out_mesh, mesh)

/-- Dimension and cell-type inference of `generate_xdmf_mesh` (the
`determine dimension` and `specify cell types` blocks): result is
`(dim, facet_type, cell_type, prune_z)`. A failed `assert`, a `KeyError`
on a missing `"gmsh:physical"` field, or the final `raise RuntimeError()`
become `Except.error`. -/
def inferDimension (mesh : Mesh) : Except String (Nat × CellType × CellType × Bool) :=
  if (mesh.cells .triangle).isSome && !(mesh.cells .tetra).isSome then
    match mesh.cell_data "gmsh:physical" with
    | none => .error "KeyError: gmsh:physical"
    | some tags =>
      if (tags .line).isSome then .ok (2, .line, .triangle, true)
      else .error "AssertionError: line in mesh.cell_data_dict[gmsh:physical]"
  else if (mesh.cells .triangle).isSome && (mesh.cells .tetra).isSome then
    match mesh.cell_data "gmsh:physical" with
    | none => .error "KeyError: gmsh:physical"
    | some tags =>
      if (tags .triangle).isSome then .ok (3, .triangle, .tetra, false)
      else .error "AssertionError: triangle in mesh.cell_data_dict[gmsh:physical]"
  else .error "RuntimeError"

/-- Python `s.replace(pat, rep)` for a non-empty `pat`: replace every
non-overlapping occurrence, scanning left to right. Structured with
explicit fuel (one unit per consumed character) so that it is a
structural recursion. -/
def replaceAllAux (pat rep : List Char) : Nat → List Char → List Char
  | _, [] => []
  | 0, s => s
  | fuel + 1, c :: cs =>
    if pat ≠ [] ∧ pat.isPrefixOf (c :: cs) then
      rep ++ replaceAllAux pat rep fuel (List.drop pat.length (c :: cs))
    else
      c :: replaceAllAux pat rep fuel cs

/-- Python `s.replace(pat, rep)`. -/
def pyReplace (s pat rep : List Char) : List Char :=
  replaceAllAux pat rep s.length s

/-- `msh_file.replace(".msh", ".xdmf")` — the body output path. -/
def xdmf_file (msh_file : List Char) : List Char :=
  pyReplace msh_file ".msh".toList ".xdmf".toList

/-- `msh_file.replace(".msh", "_facet_markers.xdmf")` — the facet-marker
output path. -/
def xdmf_facet_marker_file (msh_file : List Char) : List Char :=
  pyReplace msh_file ".msh".toList "_facet_markers.xdmf".toList

/-- Externally observable steps of one `generate_xdmf_mesh` run. A
`construct` event is recorded once the corresponding sub-mesh has been
fully constructed in memory; a `write` event once `meshio.write` has
been called on the named path. -/
inductive Event
  | runGmsh
  | parseMsh (p : List Char)
  | constructFacet
  | writeFacet (p : List Char)
  | constructBody
  | writeBody (p : List Char)
deriving DecidableEq, Repr

/-- `True` on the events that write an output file. -/
def isWrite : Event → Bool
  | .writeFacet _ => true
  | .writeBody _ => true
  | _ => false

/-- `True` on a successful `Except`. -/
def isOk {ε α : Type} : Except ε α → Bool
  | .ok _ => true
  | .error _ => false

/-- `generate_xdmf_mesh`, abstracted over its external collaborators: the
file-discovery result for the msh basename (`located`) and the mesh the
external reader would parse from the located file (`mesh`). Returns the
ordered trace of external events together with the result (the pair of
output paths, in the order the Python function returns them). When no
msh file is located, the source runs gmsh but leaves `msh_file = None`,
so the following `path.exists(msh_file)` raises and nothing is parsed. -/
def generate_xdmf_mesh (located : Option (List Char)) (mesh : Mesh) :
    List Event × Except String (List Char × List Char) :=
  match located with
  | none =>
    ([.runGmsh], .error "TypeError: path.exists(None) because msh_file is still None")
  | some msh_file =>
    let tr := [Event.parseMsh msh_file]
    match inferDimension mesh with
    | .error e => (tr, .error e)
    | .ok (_, facet_type, cell_type, prune_z) =>
      match _create_meshio_mesh mesh facet_type prune_z with
      | .error e => (tr, .error e)
      | .ok (_, mesh) =>
        let facetPath := xdmf_facet_marker_file msh_file
        let tr := tr ++ [Event.constructFacet, Event.writeFacet facetPath]
        match _create_meshio_mesh mesh cell_type prune_z with
        | .error e => (tr, .error e)
        | .ok (_, _) =>
          let bodyPath := xdmf_file msh_file
          (tr ++ [Event.constructBody, Event.writeBody bodyPath],
           .ok (bodyPath, facetPath))

/-- Spec section 3 invariant on the tag field: whenever the
`"gmsh:physical"` field has an entry for `ct`, its length equals the cell
count for `ct`. -/
def tagLenOk (m : Mesh) (ct : CellType) : Bool :=
  match get_cell_data m "gmsh:physical" ct with
  | some d => d.length == (get_cells_type m ct).length
  | none => true

/-- Spec section 3 data model: every cell connectivity tuple holds point
indices, i.e. indices below the point count. -/
def cellIdxOk (m : Mesh) (ct : CellType) : Bool :=
  (get_cells_type m ct).all fun c => c.all fun i => i < m.points.length

/-- Well-formed mesh per the spec's data model (section 3). -/
def Mesh.wf (m : Mesh) : Bool :=
  ([.point, .line, .triangle, .tetra] : List CellType).all fun ct =>
    tagLenOk m ct && cellIdxOk m ct

/-- A well-formed 2-D mesh: triangle body cells, line facet cells, tags
for both (end-to-end scenario A of the spec, scaled down). -/
def mesh2d : Mesh where
  points := [[0, 0, 0], [1, 0, 0], [0, 1, 0]]
  cells := fun ct =>
    match ct with
    | .triangle => some [[0, 1, 2]]
    | .line => some [[0, 1]]
    | _ => none
  cell_data := fun name =>
    if name = "gmsh:physical" then
      some fun ct =>
        match ct with
        | .triangle => some [1]
        | .line => some [2]
        | _ => none
    else none

/-- A well-formed 3-D mesh: tetra body cells, triangle facet cells, tags
for both (end-to-end scenario B of the spec, scaled down). -/
def mesh3d : Mesh where
  points := [[0, 0, 0], [1, 0, 0], [0, 1, 0], [0, 0, 1]]
  cells := fun ct =>
    match ct with
    | .tetra => some [[0, 1, 2, 3]]
    | .triangle => some [[0, 1, 2]]
    | _ => none
  cell_data := fun name =>
    if name = "gmsh:physical" then
      some fun ct =>
        match ct with
        | .tetra => some [1]
        | .triangle => some [2]
        | _ => none
    else none

/-- A mesh with only tetra cells and no triangle cells (end-to-end
scenario C of the spec): matches neither inference pattern. -/
def meshTetraOnly : Mesh where
  points := [[0, 0, 0], [1, 0, 0], [0, 1, 0], [0, 0, 1]]
  cells := fun ct =>
    match ct with
    | .tetra => some [[0, 1, 2, 3]]
    | _ => none
  cell_data := fun name =>
    if name = "gmsh:physical" then
      some fun ct =>
        match ct with
        | .tetra => some [1]
        | _ => none
    else none

/-- A mesh with only line cells, with a line tag entry: a supported
cell type whose tag entry exists, yet the naming decision table of
`_create_meshio_mesh` matches neither pattern. -/
def meshLineOnly : Mesh where
  points := [[0, 0, 0], [1, 0, 0]]
  cells := fun ct =>
    match ct with
    | .line => some [[0, 1]]
    | _ => none
  cell_data := fun name =>
    if name = "gmsh:physical" then
      some fun ct =>
        match ct with
        | .line => some [7]
        | _ => none
    else none

lemma wf_projections (m : Mesh) (h : m.wf = true) (ct : CellType) :
    tagLenOk m ct = true ∧ cellIdxOk m ct = true := by
  have hall := by simpa [Mesh.wf, List.all_cons] using h
  cases ct <;> tauto

lemma create_ok_struct (m : Mesh) (ct : CellType) (pz : Bool) (s : SubMesh) (m2 : Mesh)
    (h : _create_meshio_mesh m ct pz = .ok (s, m2)) :
    m2 = m ∧ ∃ nm d, data_name_table m ct = .ok nm ∧
      get_cell_data m "gmsh:physical" ct = some d ∧
      s = { points := if pz then m.points.map fun pt => pt.take 2 else m.points
            cells := (ct, get_cells_type m ct)
            cell_data := (nm, [d]) } := by
  unfold _create_meshio_mesh at h
  split at h
  · simp at h
  · split at h
    · simp at h
    · split at h
      · simp at h
      · next d hd =>
        split at h
        · simp at h
        · next nm hnm =>
          simp only [Except.ok.injEq, Prod.mk.injEq] at h
          refine ⟨h.2.symm, nm, d, hnm, hd, ?_⟩
          rw [← h.1]
          cases pz <;> simp [prune_z_0]

/-- Claim C1: the dimension and cell-type inference of
`generate_xdmf_mesh` is the exact decision table: triangle cells without
tetra cells (with a line tag entry) give dimension 2, body `triangle`,
facet `line`, prune=true; triangle and tetra cells together (with a
triangle tag entry) give dimension 3, body `tetra`, facet `triangle`,
prune=false; any mesh matching neither pattern makes inference fail
fatally. -/
theorem c1_inference_decision_table (m : Mesh) :
    ((m.cells .triangle).isSome = true ∧ (m.cells .tetra).isSome = false ∧
        hasTagEntry m .line = true →
      inferDimension m = .ok (2, .line, .triangle, true))
    ∧ ((m.cells .triangle).isSome = true ∧ (m.cells .tetra).isSome = true ∧
        hasTagEntry m .triangle = true →
      inferDimension m = .ok (3, .triangle, .tetra, false))
    ∧ (¬ ((m.cells .triangle).isSome = true ∧ (m.cells .tetra).isSome = false ∧
          hasTagEntry m .line = true) →
       ¬ ((m.cells .triangle).isSome = true ∧ (m.cells .tetra).isSome = true ∧
          hasTagEntry m .triangle = true) →
      isOk (inferDimension m) = false) := by
  refine ⟨?_, ?_, ?_⟩
  · rintro ⟨h1, h2, h3⟩
    rcases hcd : m.cell_data "gmsh:physical" with _ | tags
    · simp [hasTagEntry, hcd] at h3
    · have h3' : (tags .line).isSome = true := by simpa [hasTagEntry, hcd] using h3
      simp [inferDimension, h1, h2, hcd, h3']
  · rintro ⟨h1, h2, h3⟩
    rcases hcd : m.cell_data "gmsh:physical" with _ | tags
    · simp [hasTagEntry, hcd] at h3
    · have h3' : (tags .triangle).isSome = true := by simpa [hasTagEntry, hcd] using h3
      simp [inferDimension, h1, h2, hcd, h3']
  · intro hn1 hn2
    by_cases h1 : (m.cells .triangle).isSome = true
    · by_cases h2 : (m.cells .tetra).isSome = true
      · have h3 : hasTagEntry m .triangle = false := by
          cases hx : hasTagEntry m .triangle
          · rfl
          · exact absurd ⟨h1, h2, hx⟩ hn2
        rcases hcd : m.cell_data "gmsh:physical" with _ | tags
        · simp [inferDimension, h1, h2, hcd, isOk]
        · have h3' : (tags .triangle).isSome = false := by
            simpa [hasTagEntry, hcd] using h3
          simp [inferDimension, h1, h2, hcd, h3', isOk]
      · simp only [Bool.not_eq_true] at h2
        have h3 : hasTagEntry m .line = false := by
          cases hx : hasTagEntry m .line
          · rfl
          · exact absurd ⟨h1, h2, hx⟩ hn1
        rcases hcd : m.cell_data "gmsh:physical" with _ | tags
        · simp [inferDimension, h1, h2, hcd, isOk]
        · have h3' : (tags .line).isSome = false := by
            simpa [hasTagEntry, hcd] using h3
          simp [inferDimension, h1, h2, hcd, h3', isOk]
    · simp only [Bool.not_eq_true] at h1
      simp [inferDimension, h1, isOk]

/-- Witness for C1 on the three fixture meshes. -/
theorem c1_inference_decision_table_witness :
    inferDimension mesh2d = .ok (2, .line, .triangle, true)
    ∧ inferDimension mesh3d = .ok (3, .triangle, .tetra, false)
    ∧ isOk (inferDimension meshTetraOnly) = false :=
  ⟨(c1_inference_decision_table mesh2d).1 (by decide),
   (c1_inference_decision_table mesh3d).2.1 (by decide),
   (c1_inference_decision_table meshTetraOnly).2.2 (by decide) (by decide)⟩

lemma data_name_2d (m : Mesh) (h1 : (m.cells .triangle).isSome = true)
    (h2 : (m.cells .tetra).isSome = false) :
    data_name_table m .triangle = .ok "cell_markers"
    ∧ data_name_table m .line = .ok "facet_markers" := by
  constructor <;> simp [data_name_table, h1, h2]

lemma data_name_3d (m : Mesh) (h1 : (m.cells .triangle).isSome = true)
    (h2 : (m.cells .tetra).isSome = true) :
    data_name_table m .tetra = .ok "cell_markers"
    ∧ data_name_table m .triangle = .ok "facet_markers" := by
  constructor <;> simp [data_name_table, h1, h2]

lemma inferDimension_ok (m : Mesh) (dim : Nat) (ft ct : CellType) (pr : Bool)
    (hinf : inferDimension m = .ok (dim, ft, ct, pr)) :
    ((m.cells .triangle).isSome = true ∧ (m.cells .tetra).isSome = false ∧
      dim = 2 ∧ ft = .line ∧ ct = .triangle ∧ pr = true)
    ∨ ((m.cells .triangle).isSome = true ∧ (m.cells .tetra).isSome = true ∧
      dim = 3 ∧ ft = .triangle ∧ ct = .tetra ∧ pr = false) := by
  unfold inferDimension at hinf
  split at hinf
  · next hcond =>
    split at hinf
    · simp at hinf
    · next tags hcd =>
      split at hinf
      · next h3 =>
        left
        have ha := (Bool.and_eq_true _ _).mp hcond
        simp only [Except.ok.injEq, Prod.mk.injEq] at hinf
        obtain ⟨hd, hf, hc, hp⟩ := hinf
        exact ⟨ha.1, by simpa using ha.2, hd.symm, hf.symm, hc.symm, hp.symm⟩
      · simp at hinf
  · next hcond1 =>
    split at hinf
    · next hcond =>
      split at hinf
      · simp at hinf
      · next tags hcd =>
        split at hinf
        · next h3 =>
          right
          have ha := (Bool.and_eq_true _ _).mp hcond
          simp only [Except.ok.injEq, Prod.mk.injEq] at hinf
          obtain ⟨hd, hf, hc, hp⟩ := hinf
          exact ⟨ha.1, ha.2, hd.symm, hf.symm, hc.symm, hp.symm⟩
        · simp at hinf
    · simp at hinf

/-- Claim C2: the tag field of an extracted sub-mesh is named by the
body/facet role that `cell_type` plays for the mesh's inferred dimension:
extracting the inferred body type always yields `cell_markers` and the
inferred facet type always yields `facet_markers` (so `triangle` gets
`cell_markers` in a 2-D mesh and `facet_markers` in a 3-D mesh). -/
theorem c2_marker_naming (m : Mesh) (pz : Bool) (dim : Nat) (ft ct : CellType) (pr : Bool)
    (hinf : inferDimension m = .ok (dim, ft, ct, pr)) :
    (∀ s m2, _create_meshio_mesh m ct pz = .ok (s, m2) → s.cell_data.1 = "cell_markers")
    ∧ (∀ s m2, _create_meshio_mesh m ft pz = .ok (s, m2) → s.cell_data.1 = "facet_markers") := by
  rcases inferDimension_ok m dim ft ct pr hinf with
    ⟨h1, h2, -, hft, hct, -⟩ | ⟨h1, h2, -, hft, hct, -⟩
  · subst hft hct
    constructor
    · intro s m2 hc
      obtain ⟨-, nm, d, hnm, -, hs⟩ := create_ok_struct _ _ _ _ _ hc
      rw [(data_name_2d m h1 h2).1] at hnm
      cases hnm
      rw [hs]
    · intro s m2 hc
      obtain ⟨-, nm, d, hnm, -, hs⟩ := create_ok_struct _ _ _ _ _ hc
      rw [(data_name_2d m h1 h2).2] at hnm
      cases hnm
      rw [hs]
  · subst hft hct
    constructor
    · intro s m2 hc
      obtain ⟨-, nm, d, hnm, -, hs⟩ := create_ok_struct _ _ _ _ _ hc
      rw [(data_name_3d m h1 h2).1] at hnm
      cases hnm
      rw [hs]
    · intro s m2 hc
      obtain ⟨-, nm, d, hnm, -, hs⟩ := create_ok_struct _ _ _ _ _ hc
      rw [(data_name_3d m h1 h2).2] at hnm
      cases hnm
      rw [hs]

/-- The body sub-mesh of the 2-D fixture mesh. -/
def sub2dBody : SubMesh where
  points := [[0, 0], [1, 0], [0, 1]]
  cells := (.triangle, [[0, 1, 2]])
  cell_data := ("cell_markers", [[1]])

/-- The facet sub-mesh of the 2-D fixture mesh. -/
def sub2dFacet : SubMesh where
  points := [[0, 0], [1, 0], [0, 1]]
  cells := (.line, [[0, 1]])
  cell_data := ("facet_markers", [[2]])

/-- The body sub-mesh of the 2-D fixture mesh, extracted without
pruning. -/
def sub2dBodyUnpruned : SubMesh where
  points := [[0, 0, 0], [1, 0, 0], [0, 1, 0]]
  cells := (.triangle, [[0, 1, 2]])
  cell_data := ("cell_markers", [[1]])

/-- Witness for C2 on the 2-D fixture mesh. -/
theorem c2_marker_naming_witness :
    inferDimension mesh2d = .ok (2, .line, .triangle, true)
    ∧ _create_meshio_mesh mesh2d .triangle true = .ok (sub2dBody, mesh2d)
    ∧ _create_meshio_mesh mesh2d .line true = .ok (sub2dFacet, mesh2d)
    ∧ sub2dBody.cell_data.1 = "cell_markers"
    ∧ sub2dFacet.cell_data.1 = "facet_markers" :=
  ⟨rfl, rfl, rfl,
   (c2_marker_naming mesh2d true 2 .line .triangle true rfl).1 sub2dBody mesh2d rfl,
   (c2_marker_naming mesh2d true 2 .line .triangle true rfl).2 sub2dFacet mesh2d rfl⟩

/-- Claim C9: `_create_meshio_mesh` leaves the source mesh unchanged:
the mesh threaded through to the result is the input itself, so its
points, cells and cell data are identical before and after; pruning only
affects the returned sub-mesh. -/
theorem c9_source_mesh_unchanged (m : Mesh) (ct : CellType) (pz : Bool) (s : SubMesh)
    (m2 : Mesh) (h : _create_meshio_mesh m ct pz = .ok (s, m2)) :
    m2 = m ∧ m2.points = m.points ∧ m2.cells = m.cells ∧ m2.cell_data = m.cell_data := by
  obtain ⟨rfl, -⟩ := create_ok_struct m ct pz s m2 h
  exact ⟨rfl, rfl, rfl, rfl⟩

/-- Witness for C9: a pruning extraction on the 2-D fixture mesh returns
the source mesh unchanged. -/
theorem c9_source_mesh_unchanged_witness :
    _create_meshio_mesh mesh2d .triangle true = .ok (sub2dBody, mesh2d)
    ∧ (mesh2d = mesh2d ∧ mesh2d.points = mesh2d.points ∧ mesh2d.cells = mesh2d.cells
        ∧ mesh2d.cell_data = mesh2d.cell_data) :=
  ⟨rfl, c9_source_mesh_unchanged mesh2d .triangle true sub2dBody mesh2d rfl⟩

/-- Claim C5: for a well-formed mesh, every successful extraction
returns a sub-mesh with exactly one cell block holding the cells of
`cell_type`, exactly one cell-data field wrapping the tag sequence as a
length-1 outer sequence with tag count equal to cell count, the full
original point set (same count, no renumbering), and all referenced
point indices in range. -/
theorem c5_submesh_invariants (m : Mesh) (ct : CellType) (pz : Bool) (s : SubMesh)
    (m2 : Mesh) (hwf : m.wf = true) (h : _create_meshio_mesh m ct pz = .ok (s, m2)) :
    s.cells.1 = ct
    ∧ s.cells.2 = get_cells_type m ct
    ∧ (∃ d, s.cell_data.2 = [d] ∧ d.length = s.cells.2.length)
    ∧ s.points.length = m.points.length
    ∧ ∀ c ∈ s.cells.2, ∀ i ∈ c, i < s.points.length := by
  obtain ⟨-, nm, d, hnm, hd, hs⟩ := create_ok_struct m ct pz s m2 h
  obtain ⟨hlen, hidx⟩ := wf_projections m hwf ct
  subst hs
  simp only [tagLenOk, hd, beq_iff_eq] at hlen
  have hpts : (if pz then m.points.map fun pt => pt.take 2 else m.points).length =
      m.points.length := by
    cases pz <;> simp
  refine ⟨rfl, rfl, ⟨d, rfl, hlen⟩, hpts, ?_⟩
  intro c hc i hi
  have hm : i < m.points.length := by
    have hall := List.all_eq_true.mp hidx c hc
    have := List.all_eq_true.mp hall i hi
    simpa using this
  simpa [hpts] using hm

/-- Witness for C5 on the 2-D fixture mesh. -/
theorem c5_submesh_invariants_witness :
    Mesh.wf mesh2d = true
    ∧ _create_meshio_mesh mesh2d .triangle true = .ok (sub2dBody, mesh2d)
    ∧ (sub2dBody.cells.1 = .triangle
        ∧ sub2dBody.cells.2 = get_cells_type mesh2d .triangle
        ∧ (∃ d, sub2dBody.cell_data.2 = [d] ∧ d.length = sub2dBody.cells.2.length)
        ∧ sub2dBody.points.length = mesh2d.points.length
        ∧ ∀ c ∈ sub2dBody.cells.2, ∀ i ∈ c, i < sub2dBody.points.length) :=
  ⟨by decide, rfl,
   c5_submesh_invariants mesh2d .triangle true sub2dBody mesh2d (by decide) rfl⟩

lemma take_two_of_len3 (pt : List ℚ) (h : pt.length = 3) : pt.take 2 = pt.eraseIdx 2 := by
  obtain ⟨a, b, c, rfl⟩ := List.length_eq_three.mp h
  rfl

/-- Claim C6 (prune_z modelled from the spec): extracting with
prune=true returns the input points with exactly the third coordinate
removed from every point and the point count unchanged; extracting with
prune=false returns the input points unchanged. -/
theorem c6_prune_points (m : Mesh) (ct : CellType) (s sf : SubMesh) (m2 m3 : Mesh)
    (h3 : m.points.all (fun pt => pt.length == 3) = true)
    (ht : _create_meshio_mesh m ct true = .ok (s, m2))
    (hf : _create_meshio_mesh m ct false = .ok (sf, m3)) :
    s.points = m.points.map (fun pt => pt.eraseIdx 2)
    ∧ s.points.length = m.points.length
    ∧ sf.points = m.points := by
  obtain ⟨-, nm, d, -, -, hs⟩ := create_ok_struct _ _ _ _ _ ht
  obtain ⟨-, nm2, d2, -, -, hsf⟩ := create_ok_struct _ _ _ _ _ hf
  subst hs hsf
  refine ⟨?_, by simp, rfl⟩
  simp only [if_pos rfl]
  refine List.map_congr_left ?_
  intro pt hpt
  have := List.all_eq_true.mp h3 pt hpt
  exact take_two_of_len3 pt (by simpa using this)

/-- Witness for C6 on the 2-D fixture mesh, pruned and unpruned. -/
theorem c6_prune_points_witness :
    mesh2d.points.all (fun pt => pt.length == 3) = true
    ∧ _create_meshio_mesh mesh2d .triangle true = .ok (sub2dBody, mesh2d)
    ∧ _create_meshio_mesh mesh2d .triangle false = .ok (sub2dBodyUnpruned, mesh2d)
    ∧ (sub2dBody.points = mesh2d.points.map (fun pt => pt.eraseIdx 2)
        ∧ sub2dBody.points.length = mesh2d.points.length
        ∧ sub2dBodyUnpruned.points = mesh2d.points) :=
  ⟨by decide, rfl, rfl,
   c6_prune_points mesh2d .triangle sub2dBody sub2dBodyUnpruned mesh2d mesh2d
     (by decide) rfl rfl⟩

/-- Counterexample for C7: a mesh with only line cells and a line tag
entry satisfies both stated preconditions (supported cell type, tag
entry present), yet `_create_meshio_mesh` still fails, because the
naming decision table matches neither dimension pattern. -/
theorem c7_counterexample :
    (CellType.line ∈ ([.line, .triangle, .tetra] : List CellType))
    ∧ hasTagEntry meshLineOnly .line = true
    ∧ isOk (_create_meshio_mesh meshLineOnly .line false) = false := by
  refine ⟨by decide, by decide, by decide⟩

/-- Claim C7 as amended: extraction fails exactly when the cell type is
unsupported, or the `"gmsh:physical"` tag field lacks an entry for it,
or the naming decision table matches neither pattern; in particular the
failure conditions are independent of the cell count, so an empty cell
sequence alone never raises. -/
theorem c7_amended_failure_characterization (m : Mesh) (ct : CellType) (pz : Bool) :
    isOk (_create_meshio_mesh m ct pz) = false ↔
      (ct ∉ ([.line, .triangle, .tetra] : List CellType)
        ∨ hasTagEntry m ct = false
        ∨ isOk (data_name_table m ct) = false) := by
  unfold _create_meshio_mesh
  split
  · next hct => simp [isOk, hct]
  · next hct =>
    rcases hcd : m.cell_data "gmsh:physical" with _ | tags
    · simp [hcd, isOk, hasTagEntry, hct]
    · rcases he : tags ct with _ | d
      · simp [get_cell_data, hcd, he, isOk, hasTagEntry, hct]
      · rcases hnm : data_name_table m ct with e | nm
        · simp [get_cell_data, hcd, he, hnm, isOk, hasTagEntry, hct]
        · simp [get_cell_data, hcd, he, hnm, isOk, hasTagEntry, hct]
          intro h1 h2
          cases ct
          · simp at hct
          · exact absurd rfl h1
          · exact absurd rfl h2
          · rfl

lemma replaceAllAux_nil (pat rep : List Char) (n : Nat) : replaceAllAux pat rep n [] = [] := by
  cases n <;> rfl

lemma mshPat_eq : ".msh".toList = ['.', 'm', 's', 'h'] := rfl

lemma msh_no_straddle (pre : List Char) (hne : pre ≠ [])
    (hinf : ¬ (".msh".toList <:+: pre)) : ¬ (".msh".toList <+: pre ++ ".msh".toList) := by
  intro hp
  obtain ⟨t, ht⟩ := hp
  rcases pre with - | ⟨a, pre1⟩
  · exact hne rfl
  · rcases pre1 with - | ⟨b, pre2⟩
    · rw [mshPat_eq] at ht
      simp [List.cons.injEq] at ht
    · rcases pre2 with - | ⟨c, pre3⟩
      · rw [mshPat_eq] at ht
        simp [List.cons.injEq] at ht
      · rcases pre3 with - | ⟨d, pre4⟩
        · rw [mshPat_eq] at ht
          simp [List.cons.injEq] at ht
        · rw [mshPat_eq] at ht
          simp only [List.cons_append, List.nil_append, List.cons.injEq] at ht
          obtain ⟨h1, h2, h3, h4, -⟩ := ht
          refine hinf ⟨[], pre4, ?_⟩
          rw [mshPat_eq]
          simp only [List.nil_append, List.cons_append, List.cons.injEq]
          exact ⟨h1, h2, h3, h4, trivial⟩

lemma replaceAllAux_msh_append (rep : List Char) :
    ∀ fuel pre, (pre ++ ".msh".toList).length ≤ fuel →
      ¬ (".msh".toList <:+: pre) →
      replaceAllAux ".msh".toList rep fuel (pre ++ ".msh".toList) = pre ++ rep := by
  intro fuel
  induction fuel with
  | zero => intro pre hlen _; simp at hlen
  | succ n ih =>
    intro pre hlen hinf
    cases pre with
    | nil =>
      show replaceAllAux ".msh".toList rep (n + 1) ('.' :: 'm' :: 's' :: 'h' :: []) = rep
      rw [replaceAllAux]
      rw [if_pos (by exact ⟨by decide, by decide⟩)]
      simp [replaceAllAux_nil]
    | cons a pre' =>
      show replaceAllAux ".msh".toList rep (n + 1) (a :: (pre' ++ ".msh".toList)) =
        a :: (pre' ++ rep)
      rw [replaceAllAux]
      rw [if_neg ?hc]
      case hc =>
        rintro ⟨-, hpre⟩
        exact msh_no_straddle (a :: pre') (by simp) hinf
          (List.isPrefixOf_iff_prefix.mp hpre)
      congr 1
      apply ih pre'
      · simp at hlen ⊢; omega
      · intro hinf2
        exact hinf (List.infix_cons hinf2)

/-- Counterexample for C8: a reachable mesh path containing `.msh` also
in a directory component; `str.replace` rewrites every occurrence, so
more than the suffix changes, unlike what the claim states. -/
theorem c8_counterexample :
    "./sub.msh/mesh.msh".toList = "./sub.msh/mesh".toList ++ ".msh".toList
    ∧ xdmf_file "./sub.msh/mesh.msh".toList = "./sub.xdmf/mesh.xdmf".toList
    ∧ xdmf_file "./sub.msh/mesh.msh".toList ≠ "./sub.msh/mesh".toList ++ ".xdmf".toList
    ∧ xdmf_facet_marker_file "./sub.msh/mesh.msh".toList =
        "./sub_facet_markers.xdmf/mesh_facet_markers.xdmf".toList
    ∧ xdmf_facet_marker_file "./sub.msh/mesh.msh".toList ≠
        "./sub.msh/mesh".toList ++ "_facet_markers.xdmf".toList := by
  refine ⟨by decide, by decide, by decide, by decide, by decide⟩

/-- Claim C8 as amended: the output paths replace every occurrence of
`.msh` in the mesh path; when `.msh` occurs only as the final suffix,
this is exactly the claimed suffix substitution and nothing else in the
path changes. -/
theorem c8_amended_suffix_substitution (pre : List Char)
    (h : ¬ (".msh".toList <:+: pre)) :
    xdmf_file (pre ++ ".msh".toList) = pre ++ ".xdmf".toList
    ∧ xdmf_facet_marker_file (pre ++ ".msh".toList) = pre ++ "_facet_markers.xdmf".toList :=
  ⟨replaceAllAux_msh_append ".xdmf".toList (pre ++ ".msh".toList).length pre (le_refl _) h,
   replaceAllAux_msh_append "_facet_markers.xdmf".toList (pre ++ ".msh".toList).length pre
     (le_refl _) h⟩

/-- Witness for the amended C8 on a path whose only `.msh` is the
suffix. -/
theorem c8_amended_suffix_substitution_witness :
    ¬ (".msh".toList <:+: "./mesh".toList)
    ∧ xdmf_file ("./mesh".toList ++ ".msh".toList) = "./mesh".toList ++ ".xdmf".toList
    ∧ xdmf_facet_marker_file ("./mesh".toList ++ ".msh".toList) =
        "./mesh".toList ++ "_facet_markers.xdmf".toList :=
  ⟨by decide, (c8_amended_suffix_substitution "./mesh".toList (by decide)).1,
   (c8_amended_suffix_substitution "./mesh".toList (by decide)).2⟩

lemma generate_trace_cases (located : Option (List Char)) (mesh : Mesh) :
    (generate_xdmf_mesh located mesh).1 = [Event.runGmsh]
    ∨ (∃ p, located = some p ∧ (generate_xdmf_mesh located mesh).1 = [Event.parseMsh p])
    ∨ (∃ p, located = some p ∧ (generate_xdmf_mesh located mesh).1 =
        [Event.parseMsh p, Event.constructFacet,
         Event.writeFacet (xdmf_facet_marker_file p)])
    ∨ (∃ p, located = some p ∧ (generate_xdmf_mesh located mesh).1 =
        [Event.parseMsh p, Event.constructFacet,
         Event.writeFacet (xdmf_facet_marker_file p),
         Event.constructBody, Event.writeBody (xdmf_file p)]) := by
  rcases located with - | p
  · left; rfl
  · unfold generate_xdmf_mesh
    rcases hinf : inferDimension mesh with e | ⟨dim, ft, ct, pz⟩
    · right; left
      exact ⟨p, rfl, by simp⟩
    · rcases h1 : _create_meshio_mesh mesh ft pz with e | ⟨s1, m1⟩
      · right; left
        exact ⟨p, rfl, by simp [h1]⟩
      · rcases h2 : _create_meshio_mesh m1 ct pz with e | ⟨s2, m2⟩
        · right; right; left
          exact ⟨p, rfl, by simp [h1, h2]⟩
        · right; right; right
          exact ⟨p, rfl, by simp [h1, h2]⟩

/-- Counterexample for C3: on a perfectly ordinary successful 2-D run,
an output file (the facet-marker file) is written strictly before the
body sub-mesh is constructed, contradicting the claim that no file is
written before both sub-meshes exist in memory. -/
theorem c3_counterexample :
    isOk (generate_xdmf_mesh (some "./mesh.msh".toList) mesh2d).2 = true
    ∧ (((generate_xdmf_mesh (some "./mesh.msh".toList) mesh2d).1.takeWhile
        fun e => e ≠ Event.constructBody).all fun e => !isWrite e) = false := by
  refine ⟨by decide, by decide⟩

/-- Claim C3 as amended: no file is written before the facet sub-mesh is
constructed, and the body file is never written before the body sub-mesh
is constructed; but whenever the body sub-mesh gets constructed, the
facet file has already been written, so a failure while constructing the
body sub-mesh leaves the facet file behind. -/
theorem c3_amended_write_ordering (located : Option (List Char)) (mesh : Mesh) :
    (((generate_xdmf_mesh located mesh).1.takeWhile fun e => e ≠ Event.constructFacet).all
        fun e => !isWrite e) = true
    ∧ (∀ p, Event.writeBody p ∈
        ((generate_xdmf_mesh located mesh).1.takeWhile fun e => e ≠ Event.constructBody) →
        False)
    ∧ (Event.constructBody ∈ (generate_xdmf_mesh located mesh).1 →
        ∃ l1 l2, (generate_xdmf_mesh located mesh).1 = l1 ++ Event.constructBody :: l2
          ∧ ∃ q, Event.writeFacet q ∈ l1) := by
  rcases generate_trace_cases located mesh with htr | ⟨p, -, htr⟩ | ⟨p, -, htr⟩ | ⟨p, -, htr⟩ <;>
    rw [htr]
  · exact ⟨rfl, fun p hp => by simp at hp, fun hmem => by simp at hmem⟩
  · exact ⟨rfl, fun q hq => by simp at hq, fun hmem => by simp at hmem⟩
  · exact ⟨rfl, fun q hq => by simp [List.takeWhile] at hq, fun hmem => by simp at hmem⟩
  · refine ⟨rfl, fun q hq => by simp [List.takeWhile] at hq, fun hmem => ?_⟩
    exact ⟨[Event.parseMsh p, Event.constructFacet,
            Event.writeFacet (xdmf_facet_marker_file p)],
           [Event.writeBody (xdmf_file p)], rfl,
           xdmf_facet_marker_file p, by simp⟩

/-- Witness for the amended C3 on a successful 2-D run. -/
theorem c3_amended_write_ordering_witness :
    (((generate_xdmf_mesh (some "./m.msh".toList) mesh2d).1.takeWhile
        fun e => e ≠ Event.constructFacet).all fun e => !isWrite e) = true
    ∧ Event.constructBody ∈ (generate_xdmf_mesh (some "./m.msh".toList) mesh2d).1
    ∧ (∃ l1 l2, (generate_xdmf_mesh (some "./m.msh".toList) mesh2d).1 =
        l1 ++ Event.constructBody :: l2 ∧ ∃ q, Event.writeFacet q ∈ l1) :=
  ⟨(c3_amended_write_ordering (some "./m.msh".toList) mesh2d).1, by decide,
   (c3_amended_write_ordering (some "./m.msh".toList) mesh2d).2.2 (by decide)⟩

/-- Claim C4, evaluated on both discovery outcomes: with a pre-existing
msh file the generator is never invoked, the file is parsed and the run
completes; with none, gmsh is invoked but `msh_file` is still `None`
afterwards, so the run dies on `path.exists(None)` without ever parsing
the generated mesh — the claimed generate-then-parse continuation never
happens. -/
theorem c4_locate_or_generate :
    (generate_xdmf_mesh none mesh2d).1 = [Event.runGmsh]
    ∧ isOk (generate_xdmf_mesh none mesh2d).2 = false
    ∧ (generate_xdmf_mesh (some "./mesh.msh".toList) mesh2d).1 =
        [Event.parseMsh "./mesh.msh".toList, Event.constructFacet,
         Event.writeFacet "./mesh_facet_markers.xdmf".toList,
         Event.constructBody, Event.writeBody "./mesh.xdmf".toList]
    ∧ Event.runGmsh ∉ (generate_xdmf_mesh (some "./mesh.msh".toList) mesh2d).1
    ∧ (generate_xdmf_mesh (some "./mesh.msh".toList) mesh2d).2 =
        .ok ("./mesh.xdmf".toList, "./mesh_facet_markers.xdmf".toList) := by
  refine ⟨rfl, rfl, by decide, by decide, rfl⟩

/-- Claim C10: a successful run returns the pair (body xdmf path,
facet-marker xdmf path), in that order, and those are exactly the two
written files. -/
theorem c10_return_order (p : List Char) (mesh : Mesh) (b f : List Char)
    (h : (generate_xdmf_mesh (some p) mesh).2 = .ok (b, f)) :
    b = xdmf_file p ∧ f = xdmf_facet_marker_file p
    ∧ Event.writeBody b ∈ (generate_xdmf_mesh (some p) mesh).1
    ∧ Event.writeFacet f ∈ (generate_xdmf_mesh (some p) mesh).1 := by
  unfold generate_xdmf_mesh at h ⊢
  rcases hinf : inferDimension mesh with e | ⟨dim, ft, ct, pz⟩
  · rw [hinf] at h
    simp at h
  · rw [hinf] at h
    dsimp only at h ⊢
    rcases h1 : _create_meshio_mesh mesh ft pz with e | ⟨s1, m1⟩
    · rw [h1] at h
      simp at h
    · rw [h1] at h
      dsimp only at h ⊢
      rcases h2 : _create_meshio_mesh m1 ct pz with e | ⟨s2, m2⟩
      · rw [h2] at h
        simp at h
      · rw [h2] at h
        dsimp only at h ⊢
        simp only [Except.ok.injEq, Prod.mk.injEq] at h
        obtain ⟨hb, hf⟩ := h
        subst hb hf
        exact ⟨rfl, rfl, by simp, by simp⟩

/-- Witness for C10 on a successful 2-D run. -/
theorem c10_return_order_witness :
    (generate_xdmf_mesh (some "./mesh.msh".toList) mesh2d).2 =
      .ok ("./mesh.xdmf".toList, "./mesh_facet_markers.xdmf".toList)
    ∧ ("./mesh.xdmf".toList = xdmf_file "./mesh.msh".toList
        ∧ "./mesh_facet_markers.xdmf".toList = xdmf_facet_marker_file "./mesh.msh".toList
        ∧ Event.writeBody "./mesh.xdmf".toList ∈
            (generate_xdmf_mesh (some "./mesh.msh".toList) mesh2d).1
        ∧ Event.writeFacet "./mesh_facet_markers.xdmf".toList ∈
            (generate_xdmf_mesh (some "./mesh.msh".toList) mesh2d).1) :=
  ⟨rfl, c10_return_order "./mesh.msh".toList mesh2d "./mesh.xdmf".toList
    "./mesh_facet_markers.xdmf".toList rfl⟩

end GridTools
